import Mathlib

/-!
Verification of the Unit-of-Work repository (`uow`): a shallow embedding of
`domain_models.py`, `db_models.py`, `mappers.py`, `domain_impl.py`,
`services.py`, `uow_example.py` and `uow_v1.py`.

The SQLAlchemy `Session` is embedded as explicit state (`Sess`): the durable
store (`db`, what the engine has committed), the rows flushed inside the
current transaction (`tx*`, visible to `Session.get` but not durable), and the
rows added but not yet flushed (`pend*`, rows whose autoincrement id is still
unassigned).  `flush` assigns fresh ids and moves pending rows into the
transaction; `commit` flushes and merges the transaction into the durable
store; `rollback` and `close` discard uncommitted rows.  Counters record how
often each session-lifecycle method has been called, so "close runs exactly
once" and "record never flushes/commits" are stated as counter facts.
Python exceptions are embedded as `PyResult`, and the `with` statement's
`__enter__`/`__exit__` protocol as `withUow`.
-/

namespace Uow

/-- Python exceptions: a computation either returns normally or raises. -/
inductive PyResult (α : Type) where
  | ok (a : α)
  | exn (e : String)
deriving DecidableEq, Repr

/-- Outcome of a whole `with` block: normal value, propagated exception, or a
suppressed exception (possible only when `__exit__` returns a truthy value). -/
inductive ScopeResult (α : Type) where
  | ok (a : α)
  | exn (e : String)
  | suppressed
deriving DecidableEq, Repr

/-! ## Domain model (`domain_models.py`) -/

/-- `NewUser`: creation request, no identity yet. -/
structure NewUser where
  email : String
deriving DecidableEq, Repr

/-- `User`: identity assigned by storage on creation. -/
structure User where
  id : Nat
  email : String
deriving DecidableEq, Repr

/-- `NewInvoice`: creation request referencing a user id. -/
structure NewInvoice where
  user_id : Nat
  amount_cents : Int
deriving DecidableEq, Repr

/-- `Invoice`: persisted invoice with storage-assigned id. -/
structure Invoice where
  id : Nat
  user_id : Nat
  amount_cents : Int
deriving DecidableEq, Repr

/-- `AuditEntry`: append-only audit message. -/
structure AuditEntry where
  message : String
deriving DecidableEq, Repr

/-! ## Persistence rows (`db_models.py` / the row classes of `uow_v1.py`)

A SQLAlchemy row object exists in two phases: freshly constructed (its
autoincrement primary key is still unassigned, `id is None`) and flushed (id
assigned by the storage).  The embedding separates the two phases into two
types instead of an `Option` id: `NewUserRow` is `DBUserRow(email=...)` before
the flush, `DBUserRow` is the row once the id exists. -/

/-- `DBUserRow` / `UserRow` before its id is assigned. -/
structure NewUserRow where
  email : String
deriving DecidableEq, Repr

/-- `DBUserRow` / `UserRow` with its autoincrement id assigned. -/
structure DBUserRow where
  id : Nat
  email : String
deriving DecidableEq, Repr

/-- `DBInvoiceRow` / `InvoiceRow` before its id is assigned. -/
structure NewInvoiceRow where
  user_id : Nat
  amount_cents : Int
deriving DecidableEq, Repr

/-- `DBInvoiceRow` / `InvoiceRow` with its autoincrement id assigned. -/
structure DBInvoiceRow where
  id : Nat
  user_id : Nat
  amount_cents : Int
deriving DecidableEq, Repr

/-- `DBAuditRow` / `AuditRow` before its id is assigned. -/
structure NewAuditRow where
  message : String
deriving DecidableEq, Repr

/-- `DBAuditRow` / `AuditRow` with its autoincrement id assigned. -/
structure DBAuditRow where
  id : Nat
  message : String
deriving DecidableEq, Repr

/-! ## Entity mapper (`mappers.py`, class `DomainEntityMapper`) -/

namespace DomainEntityMapper

/-- `new_user_to_row(user) = DBUserRow(email=user.email)`. -/
def new_user_to_row (user : NewUser) : NewUserRow :=
  ⟨user.email⟩

/-- `user_row_to_domain(row) = User(id=row.id, email=row.email)`. -/
def user_row_to_domain (row : DBUserRow) : User :=
  ⟨row.id, row.email⟩

/-- `new_invoice_to_row(invoice) = DBInvoiceRow(user_id=..., amount_cents=...)`. -/
def new_invoice_to_row (invoice : NewInvoice) : NewInvoiceRow :=
  ⟨invoice.user_id, invoice.amount_cents⟩

/-- `invoice_row_to_domain(row) = Invoice(id=row.id, user_id=row.user_id, amount_cents=row.amount_cents)`. -/
def invoice_row_to_domain (row : DBInvoiceRow) : Invoice :=
  ⟨row.id, row.user_id, row.amount_cents⟩

/-- `audit_entry_to_row(entry) = DBAuditRow(message=entry.message)`. -/
def audit_entry_to_row (entry : AuditEntry) : NewAuditRow :=
  ⟨entry.message⟩

end DomainEntityMapper

/-! ## The storage engine's durable state -/

/-- The committed contents of the three tables. -/
structure DB where
  users : List DBUserRow
  invoices : List DBInvoiceRow
  audit : List DBAuditRow
deriving DecidableEq, Repr

/-- The empty database (freshly bootstrapped schema). -/
def DB.empty : DB := ⟨[], [], []⟩

/-- Largest element of a list of ids (0 when empty); autoincrement assigns
`maxId + 1` next, mirroring sqlite's rowid assignment. -/
def maxId (l : List Nat) : Nat := l.foldr max 0

/-! ## Session state -/

/-- The embedded SQLAlchemy `Session`. -/
structure Sess where
  db : DB
  txUsers : List DBUserRow
  txInvoices : List DBInvoiceRow
  txAudit : List DBAuditRow
  pendUsers : List NewUserRow
  pendInvoices : List NewInvoiceRow
  pendAudit : List NewAuditRow
  flushCount : Nat
  commitCount : Nat
  rollbackCount : Nat
  closeCount : Nat
deriving DecidableEq, Repr

/-- A fresh session from the session factory, with `begin()` called: bound to
the engine's durable state, nothing pending, nothing flushed. -/
def Sess.fresh (db : DB) : Sess :=
  ⟨db, [], [], [], [], [], [], 0, 0, 0, 0⟩

/-- Assign consecutive autoincrement ids, starting at `base`, to a list of
not-yet-flushed rows. -/
def assignIds (mk : Nat → α → β) : Nat → List α → List β
  | _, [] => []
  | base, r :: rs => mk base r :: assignIds mk (base + 1) rs

/-- Next autoincrement id for the users table: one past the largest id the
transaction can see (durable rows plus rows already flushed in it). -/
def Sess.nextUserId (s : Sess) : Nat :=
  maxId ((s.db.users ++ s.txUsers).map DBUserRow.id) + 1

/-- Next autoincrement id for the invoices table. -/
def Sess.nextInvoiceId (s : Sess) : Nat :=
  maxId ((s.db.invoices ++ s.txInvoices).map DBInvoiceRow.id) + 1

/-- Next autoincrement id for the audit table. -/
def Sess.nextAuditId (s : Sess) : Nat :=
  maxId ((s.db.audit ++ s.txAudit).map DBAuditRow.id) + 1

/-- `Session.flush()`: push every pending row into the transaction, assigning
autoincrement ids in insertion order; ids become visible without ending the
transaction. -/
def Sess.flush (s : Sess) : Sess :=
  { s with
    txUsers := s.txUsers ++
      assignIds (fun i r => DBUserRow.mk i r.email) s.nextUserId s.pendUsers
    txInvoices := s.txInvoices ++
      assignIds (fun i r => DBInvoiceRow.mk i r.user_id r.amount_cents)
        s.nextInvoiceId s.pendInvoices
    txAudit := s.txAudit ++
      assignIds (fun i r => DBAuditRow.mk i r.message) s.nextAuditId s.pendAudit
    pendUsers := []
    pendInvoices := []
    pendAudit := []
    flushCount := s.flushCount + 1 }

/-- `Session.commit()`: flush pending writes, then make the transaction's rows
durable and end the transaction. -/
def Sess.commit (s : Sess) : Sess :=
  let f := s.flush
  { f with
    db := ⟨f.db.users ++ f.txUsers, f.db.invoices ++ f.txInvoices,
           f.db.audit ++ f.txAudit⟩
    txUsers := []
    txInvoices := []
    txAudit := []
    commitCount := f.commitCount + 1 }

/-- `Session.rollback()`: discard every uncommitted row; the durable store is
untouched. -/
def Sess.rollback (s : Sess) : Sess :=
  { s with
    txUsers := []
    txInvoices := []
    txAudit := []
    pendUsers := []
    pendInvoices := []
    pendAudit := []
    rollbackCount := s.rollbackCount + 1 }

/-- `Session.close()`: release the connection; any rows not yet committed are
discarded with it. -/
def Sess.close (s : Sess) : Sess :=
  { s with
    txUsers := []
    txInvoices := []
    txAudit := []
    pendUsers := []
    pendInvoices := []
    pendAudit := []
    closeCount := s.closeCount + 1 }

/-- `Session.get(DBUserRow, user_id)`: rows flushed in this transaction shadow
the durable table. -/
def Sess.getUserRow (s : Sess) (user_id : Nat) : Option DBUserRow :=
  match s.txUsers.find? (fun r => r.id == user_id) with
  | some r => some r
  | none => s.db.users.find? (fun r => r.id == user_id)

/-! ## The Unit of Work (`SqlAlchemyUnitOfWork`, identical in `domain_impl.py`
and `uow_v1.py`)

The object's only piece of state is `self._session: Optional[Session]`, set to
`None` in `__init__` and to a fresh session by `__enter__`; `__exit__` and
`flush` assert it is not `None`.  `__exit__`'s commit and rollback calls may
themselves raise in Python; the embedding injects those failures through the
`commitRaises` / `rollbackRaises` flags (`false` is the non-failing run). -/

/-- The `SqlAlchemyUnitOfWork` object: its `_session` attribute. -/
structure UowObj where
  session : Option Sess
deriving DecidableEq, Repr

/-- `__init__`: `self._session = None`. -/
def UowObj.init : UowObj := ⟨none⟩

/-- `__enter__`: acquire a fresh session from the factory (bound to the
engine's durable state `db`), begin the transaction, and bind the repository
implementations to it.  The previous contents of `_session` are overwritten
unconditionally. -/
def UowObj.enter (db : DB) (_u : UowObj) : UowObj :=
  ⟨some (Sess.fresh db)⟩

/-- `__exit__(exc_type, exc, tb)`: assert the session exists; commit when no
error was raised in the scope body, else roll back; in Python's `finally`
block, close; return `False`.  If commit or rollback raises, the close still
runs and the new exception propagates out of `__exit__`. -/
def UowObj.exit (excRaised commitRaises rollbackRaises : Bool) (u : UowObj) :
    PyResult Bool × UowObj :=
  match u.session with
  | none => (.exn "AssertionError", u)
  | some s =>
    let step : PyResult Unit × Sess :=
      if excRaised then
        if rollbackRaises then (.exn "rollback failed", s) else (.ok (), s.rollback)
      else
        if commitRaises then (.exn "commit failed", s) else (.ok (), s.commit)
    let s2 := step.2.close
    match step.1 with
    | .ok _ => (.ok false, ⟨some s2⟩)
    | .exn e => (.exn e, ⟨some s2⟩)

/-- `flush`: assert the session exists, then delegate to `Session.flush`.
Note that the session reference is never reset to `None`, so the assertion
can only fail before `__enter__` has run. -/
def UowObj.flush (u : UowObj) : PyResult Unit × UowObj :=
  match u.session with
  | none => (.exn "AssertionError", u)
  | some s => (.ok (), ⟨some s.flush⟩)

/-- Durable state after a Unit-of-Work interaction: the closed session's view
of the store (the fallback is unreachable for entered instances). -/
def UowObj.finalDB (u : UowObj) (fallback : DB) : DB :=
  match u.session with
  | some s => s.db
  | none => fallback

/-- Python's `with uow_factory() as uow: body` over an engine whose durable
state is `db`: run `__enter__`, the body, then `__exit__` with the body's
error status.  A body error is re-raised unless `__exit__` returns a truthy
value; an exception raised by `__exit__` itself propagates instead. -/
def withUow (db : DB) (body : Sess → PyResult α × Sess) : ScopeResult α × DB :=
  match (UowObj.enter db UowObj.init).session with
  | none => (.exn "unreachable", db)
  | some s =>
    match body s with
    | (.ok a, s2) =>
      match UowObj.exit false false false ⟨some s2⟩ with
      | (.ok _, u') => (.ok a, u'.finalDB db)
      | (.exn e, u') => (.exn e, u'.finalDB db)
    | (.exn e, s2) =>
      match UowObj.exit true false false ⟨some s2⟩ with
      | (.ok b, u') => (if b then .suppressed else .exn e, u'.finalDB db)
      | (.exn e2, u') => (.exn e2, u'.finalDB db)

/-! ## Repository implementations and services, split-module variant
(`domain_impl.py` + `services.py` + `uow_example.py`)

A repository object holds a reference to the shared session; the embedding
passes that session state explicitly and returns the updated state. -/

namespace Impl

/-- `SqlAlchemyUserRepo.get`: fetch the row, map it to the domain if present. -/
def SqlAlchemyUserRepo.get (s : Sess) (user_id : Nat) : Option User :=
  (s.getUserRow user_id).map DomainEntityMapper.user_row_to_domain

/-- `SqlAlchemyUserRepo.add`: build the row via the mapper, `session.add` it,
`session.flush()` so its id is assigned, and map the flushed row back.  The
added row object is the last user row the flush pushed into the transaction. -/
def SqlAlchemyUserRepo.add (s : Sess) (user : NewUser) : User × Sess :=
  let row := DomainEntityMapper.new_user_to_row user
  let s2 := Sess.flush { s with pendUsers := s.pendUsers ++ [row] }
  (DomainEntityMapper.user_row_to_domain (s2.txUsers.getLastD ⟨0, row.email⟩), s2)

/-- `SqlAlchemyInvoiceRepo.add`: same add-flush-map-back shape for invoices. -/
def SqlAlchemyInvoiceRepo.add (s : Sess) (invoice : NewInvoice) : Invoice × Sess :=
  let row := DomainEntityMapper.new_invoice_to_row invoice
  let s2 := Sess.flush { s with pendInvoices := s.pendInvoices ++ [row] }
  (DomainEntityMapper.invoice_row_to_domain
    (s2.txInvoices.getLastD ⟨0, row.user_id, row.amount_cents⟩), s2)

/-- `SqlAlchemyAuditRepo.record`: `session.add` the mapped row, no flush. -/
def SqlAlchemyAuditRepo.record (s : Sess) (entry : AuditEntry) : Sess :=
  { s with pendAudit := s.pendAudit ++ [DomainEntityMapper.audit_entry_to_row entry] }

/-- `UserService.register_user`: add a `NewUser`, return the created id. -/
def UserService.register_user (s : Sess) (email : String) : Nat × Sess :=
  let r := SqlAlchemyUserRepo.add s ⟨email⟩
  (r.1.id, r.2)

/-- `BillingService.create_invoice`: raise `ValueError("user not found")` when
`users.get` is empty, else add the invoice and return its id.  The
`injectInfraError` flag models the spec's injected infrastructure error raised
after the user check and before the invoice insert; `false` is the source
behavior. -/
def BillingService.create_invoice (injectInfraError : Bool) (s : Sess)
    (user_id : Nat) (amount_cents : Int) : PyResult Nat × Sess :=
  match SqlAlchemyUserRepo.get s user_id with
  | none => (.exn "user not found", s)
  | some _ =>
    if injectInfraError then (.exn "infrastructure error", s)
    else
      let r := SqlAlchemyInvoiceRepo.add s ⟨user_id, amount_cents⟩
      (.ok r.1.id, r.2)

/-- `AuditService.record`: wrap the message into an `AuditEntry` and record it. -/
def AuditService.record (s : Sess) (message : String) : Sess :=
  SqlAlchemyAuditRepo.record s ⟨message⟩

/-- `purchase_workflow_use_case` (`uow_example.py`): register the hardcoded
user, create a 10000-cent invoice for the new id, record the audit line
`f"purchase: user_id={user_id} invoice_id={invoice_id}"`, return the invoice
id. -/
def purchase_workflow_use_case (injectInfraError : Bool) (s : Sess) :
    PyResult Nat × Sess :=
  let r1 := UserService.register_user s "michelle@example.com"
  match BillingService.create_invoice injectInfraError r1.2 r1.1 10000 with
  | (.exn e, s2) => (.exn e, s2)
  | (.ok invoice_id, s2) =>
    (.ok invoice_id,
     AuditService.record s2
       ("purchase: user_id=" ++ toString r1.1 ++ " invoice_id=" ++ toString invoice_id))

end Impl

/-! ## Self-contained variant (`uow_v1.py`): repos return plain ids/emails and
services take the UoW per call. -/

namespace V1

/-- `SqlAlchemyUserRepo.get_email`: the row's email, if the user exists. -/
def SqlAlchemyUserRepo.get_email (s : Sess) (user_id : Nat) : Option String :=
  (s.getUserRow user_id).map DBUserRow.email

/-- `SqlAlchemyUserRepo.add_user`: `UserRow(email=email)`, add, flush, return
`row.id`. -/
def SqlAlchemyUserRepo.add_user (s : Sess) (email : String) : Nat × Sess :=
  let s2 := Sess.flush { s with pendUsers := s.pendUsers ++ [⟨email⟩] }
  ((s2.txUsers.getLastD ⟨0, email⟩).id, s2)

/-- `SqlAlchemyInvoiceRepo.add_invoice`: build the row, add, flush, return
`row.id`. -/
def SqlAlchemyInvoiceRepo.add_invoice (s : Sess) (user_id : Nat)
    (amount_cents : Int) : Nat × Sess :=
  let s2 := Sess.flush { s with pendInvoices := s.pendInvoices ++ [⟨user_id, amount_cents⟩] }
  ((s2.txInvoices.getLastD ⟨0, user_id, amount_cents⟩).id, s2)

/-- `SqlAlchemyAuditRepo.record`: add `AuditRow(message=message)`, no flush. -/
def SqlAlchemyAuditRepo.record (s : Sess) (message : String) : Sess :=
  { s with pendAudit := s.pendAudit ++ [⟨message⟩] }

/-- `UserService.register_user`: `uow.users.add_user(email)`. -/
def UserService.register_user (s : Sess) (email : String) : Nat × Sess :=
  SqlAlchemyUserRepo.add_user s email

/-- `BillingService.create_invoice`: raise `ValueError("user not found")` when
`uow.users.get_email(user_id)` is `None`, else `uow.invoices.add_invoice`.
The `injectInfraError` flag models the spec's injected infrastructure error
after the user check; `false` is the source behavior. -/
def BillingService.create_invoice (injectInfraError : Bool) (s : Sess)
    (user_id : Nat) (amount_cents : Int) : PyResult Nat × Sess :=
  match SqlAlchemyUserRepo.get_email s user_id with
  | none => (.exn "user not found", s)
  | some _ =>
    if injectInfraError then (.exn "infrastructure error", s)
    else
      let r := SqlAlchemyInvoiceRepo.add_invoice s user_id amount_cents
      (.ok r.1, r.2)

/-- `AuditService.record`: `uow.audit.record(message)`. -/
def AuditService.record (s : Sess) (message : String) : Sess :=
  SqlAlchemyAuditRepo.record s message

/-- `purchase_workflow` (`uow_v1.py`): register the user, create the invoice
for the new id, record
`f"purchase: user_id={user_id} invoice_id={invoice_id} amount={amount_cents}"`,
return the invoice id. -/
def purchase_workflow (injectInfraError : Bool) (s : Sess) (email : String)
    (amount_cents : Int) : PyResult Nat × Sess :=
  let r1 := UserService.register_user s email
  match BillingService.create_invoice injectInfraError r1.2 r1.1 amount_cents with
  | (.exn e, s2) => (.exn e, s2)
  | (.ok invoice_id, s2) =>
    (.ok invoice_id,
     AuditService.record s2
       ("purchase: user_id=" ++ toString r1.1 ++ " invoice_id=" ++ toString invoice_id
         ++ " amount=" ++ toString amount_cents))

end V1

/-! ## Basic lemmas about id assignment and session operations -/

theorem le_maxId {a : Nat} {l : List Nat} (h : a ∈ l) : a ≤ maxId l := by
  induction l with
  | nil => cases h
  | cons x xs ih =>
    rcases List.mem_cons.mp h with rfl | hx
    · exact Nat.le_max_left _ _
    · exact Nat.le_trans (ih hx) (Nat.le_max_right _ _)

theorem assignIds_concat (mk : Nat → α → β) (base : Nat) (l : List α) (r : α) :
    assignIds mk base (l ++ [r]) = assignIds mk base l ++ [mk (base + l.length) r] := by
  induction l generalizing base with
  | nil => simp [assignIds]
  | cons a l ih =>
    have h : base + 1 + l.length = base + (l.length + 1) := by omega
    simp only [List.cons_append, assignIds, List.append_eq, ih, List.length_cons, h]

theorem mem_assignIds {mk : Nat → α → β} {b : β} {base : Nat} {l : List α}
    (hb : b ∈ assignIds mk base l) :
    ∃ i r, i < l.length ∧ r ∈ l ∧ b = mk (base + i) r := by
  induction l generalizing base with
  | nil => cases hb
  | cons a l ih =>
    rcases List.mem_cons.mp hb with rfl | hb'
    · exact ⟨0, a, by simp, by simp, by simp⟩
    · obtain ⟨i, r, hi, hr, hb''⟩ := ih hb'
      exact ⟨i + 1, r, by simpa using hi, List.mem_cons_of_mem _ hr,
        by rw [hb'']; congr 1; omega⟩

/-- Rows already visible to a transaction all have ids below the table's next
autoincrement id, so a find for a fresh id never hits them. -/
theorem find?_eq_none_of_id_ge {l : List DBUserRow} {base uid : Nat}
    (hbase : ∀ r ∈ l, r.id < base) (huid : base ≤ uid) :
    l.find? (fun r => r.id == uid) = none := by
  rw [List.find?_eq_none]
  intro r hr h
  have hid : r.id = uid := by simpa using h
  have := hbase r hr
  omega

/-! ## C3: the entity mapper round-trips every shared field -/

/-- C3: for User, Invoice and AuditEntry, the to-row and row-to-domain mapper
functions are mutual inverses on every field present in both representations.
A creation request (`NewUser`/`NewInvoice`) maps to a row whose id the storage
assigns at flush; mapping that row back recovers every shared field (email;
user_id and amount_cents), and the row-to-domain direction preserves each row
field, so the audit row carries exactly the entry's message. -/
theorem mapper_round_trip_on_shared_fields :
    (∀ (u : NewUser) (i : Nat),
      DomainEntityMapper.user_row_to_domain
          ⟨i, (DomainEntityMapper.new_user_to_row u).email⟩ =
        ⟨i, u.email⟩) ∧
    (∀ r : DBUserRow,
      (DomainEntityMapper.user_row_to_domain r).id = r.id ∧
      (DomainEntityMapper.user_row_to_domain r).email = r.email) ∧
    (∀ (v : NewInvoice) (i : Nat),
      DomainEntityMapper.invoice_row_to_domain
          ⟨i, (DomainEntityMapper.new_invoice_to_row v).user_id,
              (DomainEntityMapper.new_invoice_to_row v).amount_cents⟩ =
        ⟨i, v.user_id, v.amount_cents⟩) ∧
    (∀ r : DBInvoiceRow,
      (DomainEntityMapper.invoice_row_to_domain r).id = r.id ∧
      (DomainEntityMapper.invoice_row_to_domain r).user_id = r.user_id ∧
      (DomainEntityMapper.invoice_row_to_domain r).amount_cents = r.amount_cents) ∧
    (∀ e : AuditEntry, (DomainEntityMapper.audit_entry_to_row e).message = e.message) :=
  ⟨fun _ _ => rfl, fun _ => ⟨rfl, rfl⟩, fun _ _ => rfl, fun _ => ⟨rfl, rfl, rfl⟩,
    fun _ => rfl⟩

/-! ## C9: the mapper functions are pure, total and deterministic

In the embedding each mapper is a plain function of its domain or row argument
alone: its type gives it no access to a `Sess` (transaction handle) or `DB`
(storage state), so freedom from side effects and storage access is enforced
structurally.  The theorem states the two run-level consequences: equal inputs
give equal outputs (determinism across runs), and every input has an output
(totality). -/

/-- C9: each of the five mapper functions is deterministic (two runs on equal
inputs return equal outputs) and total (every input yields an output); as pure
functions of their argument they touch no transaction or storage state. -/
theorem mapper_functions_deterministic_and_total :
    (∀ u₁ u₂ : NewUser, u₁ = u₂ →
      DomainEntityMapper.new_user_to_row u₁ = DomainEntityMapper.new_user_to_row u₂) ∧
    (∀ r₁ r₂ : DBUserRow, r₁ = r₂ →
      DomainEntityMapper.user_row_to_domain r₁ = DomainEntityMapper.user_row_to_domain r₂) ∧
    (∀ v₁ v₂ : NewInvoice, v₁ = v₂ →
      DomainEntityMapper.new_invoice_to_row v₁ = DomainEntityMapper.new_invoice_to_row v₂) ∧
    (∀ r₁ r₂ : DBInvoiceRow, r₁ = r₂ →
      DomainEntityMapper.invoice_row_to_domain r₁ = DomainEntityMapper.invoice_row_to_domain r₂) ∧
    (∀ e₁ e₂ : AuditEntry, e₁ = e₂ →
      DomainEntityMapper.audit_entry_to_row e₁ = DomainEntityMapper.audit_entry_to_row e₂) ∧
    (∀ u : NewUser, ∃ r, DomainEntityMapper.new_user_to_row u = r) ∧
    (∀ r : DBUserRow, ∃ u, DomainEntityMapper.user_row_to_domain r = u) ∧
    (∀ v : NewInvoice, ∃ r, DomainEntityMapper.new_invoice_to_row v = r) ∧
    (∀ r : DBInvoiceRow, ∃ v, DomainEntityMapper.invoice_row_to_domain r = v) ∧
    (∀ e : AuditEntry, ∃ r, DomainEntityMapper.audit_entry_to_row e = r) :=
  ⟨fun _ _ h => h ▸ rfl, fun _ _ h => h ▸ rfl, fun _ _ h => h ▸ rfl,
    fun _ _ h => h ▸ rfl, fun _ _ h => h ▸ rfl,
    fun _ => ⟨_, rfl⟩, fun _ => ⟨_, rfl⟩, fun _ => ⟨_, rfl⟩,
    fun _ => ⟨_, rfl⟩, fun _ => ⟨_, rfl⟩⟩

/-- C9 witness: the determinism conjuncts instantiated at concrete inputs. -/
theorem mapper_functions_deterministic_and_total_witness :
    DomainEntityMapper.new_user_to_row ⟨"a@example.com"⟩ =
      DomainEntityMapper.new_user_to_row ⟨"a@example.com"⟩ ∧
    DomainEntityMapper.audit_entry_to_row ⟨"hello"⟩ =
      DomainEntityMapper.audit_entry_to_row ⟨"hello"⟩ :=
  ⟨mapper_functions_deterministic_and_total.1 ⟨"a@example.com"⟩ ⟨"a@example.com"⟩ rfl,
    (mapper_functions_deterministic_and_total.2.2.2.2.1) ⟨"hello"⟩ ⟨"hello"⟩ rfl⟩

/-! ## C1: `__exit__` commits or rolls back, re-raises, and always closes -/

/-- C1: on clean scope exit `__exit__` commits then closes; on an error it
rolls back then closes and returns `False`, so the `with` statement re-raises
the original error (stated at scope level: a failing body's error is the
scope's result, a clean body's value is returned after commit); `__exit__`
never returns `True`, so no error is ever suppressed; and the close runs
exactly once on every exit path — also when the injected commit or rollback
failure makes the try-block raise — because it sits in the `finally` block. -/
theorem uow_exit_commit_rollback_close_once :
    (∀ (s : Sess) (rollbackRaises : Bool),
      UowObj.exit false false rollbackRaises ⟨some s⟩ =
        (.ok false, ⟨some s.commit.close⟩)) ∧
    (∀ (s : Sess) (commitRaises : Bool),
      UowObj.exit true commitRaises false ⟨some s⟩ =
        (.ok false, ⟨some s.rollback.close⟩)) ∧
    (∀ (s : Sess) (excRaised commitRaises rollbackRaises : Bool),
      ∃ s', (UowObj.exit excRaised commitRaises rollbackRaises ⟨some s⟩).2.session = some s' ∧
        s'.closeCount = s.closeCount + 1) ∧
    (∀ (s : Sess) (excRaised commitRaises rollbackRaises : Bool),
      (UowObj.exit excRaised commitRaises rollbackRaises ⟨some s⟩).1 ≠ .ok true) ∧
    (∀ (α : Type) (f : Sess → Sess) (a : α) (db : DB),
      withUow db (fun s => (.ok a, f s)) = (.ok a, ((f (Sess.fresh db)).commit).db)) ∧
    (∀ (α : Type) (f : Sess → Sess) (e : String) (db : DB),
      withUow db (fun s => ((.exn e : PyResult α), f s)) = (.exn e, (f (Sess.fresh db)).db)) := by
  refine ⟨fun s rf => rfl, fun s cf => rfl, ?_, ?_, fun α f a db => rfl, fun α f e db => rfl⟩
  · intro s exc cf rf
    cases exc <;> cases cf <;> cases rf <;> exact ⟨_, rfl, rfl⟩
  · intro s exc cf rf
    cases exc <;> cases cf <;> cases rf <;> simp [UowObj.exit]

/-- C1 witness: the exit spec instantiated on a fresh session over the empty
database, with both failure injections on for the no-suppression conjunct. -/
theorem uow_exit_commit_rollback_close_once_witness :
    UowObj.exit false false false ⟨some (Sess.fresh DB.empty)⟩ =
      (.ok false, ⟨some (Sess.fresh DB.empty).commit.close⟩) ∧
    (UowObj.exit true true true ⟨some (Sess.fresh DB.empty)⟩).1 ≠ .ok true :=
  ⟨uow_exit_commit_rollback_close_once.1 (Sess.fresh DB.empty) false,
    uow_exit_commit_rollback_close_once.2.2.2.1 (Sess.fresh DB.empty) true true true⟩

/-! ## C10: the `flush` assertion guards only pre-enter use -/

/-- C10: before `__enter__` has run the session reference is still `None`, so
`flush` fails its assertion; once `__enter__` has completed the assertion is
unreachable and `flush` delegates to the session's flush; and since `__exit__`
never resets the reference to `None`, the guard rejects only pre-enter use —
`flush` on any entered instance, including an exited one, still succeeds. -/
theorem uow_flush_assertion_guard :
    UowObj.init.session = none ∧
    UowObj.flush UowObj.init = (.exn "AssertionError", UowObj.init) ∧
    (∀ (db : DB) (u : UowObj),
      UowObj.flush (UowObj.enter db u) = (.ok (), ⟨some (Sess.fresh db).flush⟩)) ∧
    (∀ (s : Sess) (excRaised commitRaises rollbackRaises : Bool),
      ((UowObj.exit excRaised commitRaises rollbackRaises ⟨some s⟩).2).session.isSome = true) ∧
    (∀ s : Sess, UowObj.flush ⟨some s⟩ = (.ok (), ⟨some s.flush⟩)) := by
  refine ⟨rfl, rfl, fun db u => rfl, ?_, fun s => rfl⟩
  intro s exc cf rf
  cases exc <;> cases cf <;> cases rf <;> rfl

/-! ## C6: the UoW state machine, and the missing single-use enforcement

The acquisition half of the claim holds: `__init__` leaves the instance
Unopened (no session), `__enter__` acquires a fresh begun session and binds
the repositories to it, and `__exit__` drives an Active instance into a
terminal Committed or RolledBack state with the handle released.  The
single-use half does not hold of the code: nothing rejects reuse.  Calling
`__enter__` on an exited instance simply overwrites `_session` with a fresh
session, and the post-exit assertion guards pass because `_session` is never
reset to `None`. -/

/-- C6 counterexample: take the instance `u1` that has committed and closed
(a terminal state).  Contrary to the claim, none of the forbidden uses is
rejected: `flush` on `u1` succeeds, re-entering `u1` succeeds and yields a
fresh Active session, and a second exit on the re-entered instance succeeds
as well. -/
theorem uow_single_use_not_rejected :
    (UowObj.flush
        (UowObj.exit false false false (UowObj.enter DB.empty UowObj.init)).2).1 =
      .ok () ∧
    (UowObj.enter DB.empty
        (UowObj.exit false false false (UowObj.enter DB.empty UowObj.init)).2).session =
      some (Sess.fresh DB.empty) ∧
    (UowObj.exit false false false
        (UowObj.enter DB.empty
          (UowObj.exit false false false (UowObj.enter DB.empty UowObj.init)).2)).1 =
      .ok false :=
  ⟨rfl, rfl, rfl⟩

/-- C6 amended: a UnitOfWork instance starts Unopened (`_session = None`);
`__enter__` acquires a fresh transaction handle, begins the transaction and
publishes the repositories bound to it (in the embedding, repository
operations act on that session state); `__exit__` moves an Active instance to
a terminal state, releasing the handle exactly once and bumping the commit or
rollback counter according to the exit path.  The terminal states are final
only as long as the caller respects the protocol: the implementation does not
enforce single-use — re-entering any instance succeeds and just acquires a
fresh session, and `flush` (or repository use) after exit is not rejected. -/
theorem uow_state_machine_spec :
    UowObj.init.session = none ∧
    (∀ (db : DB) (u : UowObj), UowObj.enter db u = ⟨some (Sess.fresh db)⟩) ∧
    (∀ (s : Sess) (excRaised commitRaises rollbackRaises : Bool),
      ∃ s', (UowObj.exit excRaised commitRaises rollbackRaises ⟨some s⟩).2.session = some s' ∧
        s'.closeCount = s.closeCount + 1 ∧
        (excRaised = false → commitRaises = false → s'.commitCount = s.commitCount + 1) ∧
        (excRaised = true → rollbackRaises = false → s'.rollbackCount = s.rollbackCount + 1)) ∧
    (∀ (s : Sess) (db : DB), (UowObj.enter db ⟨some s⟩).session = some (Sess.fresh db)) ∧
    (∀ s : Sess, (UowObj.flush ⟨some s⟩).1 = .ok ()) := by
  refine ⟨rfl, fun db u => rfl, ?_, fun s db => rfl, fun s => rfl⟩
  intro s exc cf rf
  cases exc <;> cases cf <;> cases rf <;>
    refine ⟨_, rfl, rfl, ?_, ?_⟩ <;> intro h1 h2 <;>
    first
      | rfl
      | exact Bool.noConfusion h1
      | exact Bool.noConfusion h2

/-- C6 amended witness: the exit clause instantiated on a fresh session over
the empty database, committing cleanly. -/
theorem uow_state_machine_spec_witness :
    ∃ s', (UowObj.exit false false false ⟨some (Sess.fresh DB.empty)⟩).2.session = some s' ∧
      s'.closeCount = 1 ∧ s'.commitCount = 1 := by
  obtain ⟨s', h1, h2, h3, _⟩ :=
    uow_state_machine_spec.2.2.1 (Sess.fresh DB.empty) false false false
  exact ⟨s', h1, h2, h3 rfl rfl⟩

/-! ## C8: `AuditRepo.record` only appends to the pending write set -/

/-- C8: `record` adds the mapped audit row to the shared transaction's pending
write set and does nothing else — no flush (the flush counter and the flushed
transaction rows are untouched), no commit or rollback (those counters are
untouched), no return value, and every other component of the session state,
including the durable store and the pending user and invoice writes, is
unchanged.  The row becomes durable only at the UoW's commit: `record` leaves
the durable store as it was, while a subsequent `Session.commit` makes the
message appear in the durable audit table. -/
theorem audit_record_frame (s : Sess) (entry : AuditEntry) :
    Impl.SqlAlchemyAuditRepo.record s entry =
      { s with pendAudit := s.pendAudit ++ [DomainEntityMapper.audit_entry_to_row entry] } ∧
    (Impl.SqlAlchemyAuditRepo.record s entry).db = s.db ∧
    (Impl.SqlAlchemyAuditRepo.record s entry).txUsers = s.txUsers ∧
    (Impl.SqlAlchemyAuditRepo.record s entry).txInvoices = s.txInvoices ∧
    (Impl.SqlAlchemyAuditRepo.record s entry).txAudit = s.txAudit ∧
    (Impl.SqlAlchemyAuditRepo.record s entry).pendUsers = s.pendUsers ∧
    (Impl.SqlAlchemyAuditRepo.record s entry).pendInvoices = s.pendInvoices ∧
    (Impl.SqlAlchemyAuditRepo.record s entry).flushCount = s.flushCount ∧
    (Impl.SqlAlchemyAuditRepo.record s entry).commitCount = s.commitCount ∧
    (Impl.SqlAlchemyAuditRepo.record s entry).rollbackCount = s.rollbackCount ∧
    (Impl.SqlAlchemyAuditRepo.record s entry).closeCount = s.closeCount ∧
    entry.message ∈
      ((Impl.SqlAlchemyAuditRepo.record s entry).commit).db.audit.map DBAuditRow.message := by
  refine ⟨rfl, rfl, rfl, rfl, rfl, rfl, rfl, rfl, rfl, rfl, rfl, ?_⟩
  simp [Impl.SqlAlchemyAuditRepo.record, Sess.commit, Sess.flush, assignIds_concat,
    DomainEntityMapper.audit_entry_to_row]

/-! ## C2: a mid-workflow failure discards all three effects atomically -/

/-- C2: run `purchase_workflow` in a UoW scope over any starting durable state
and inject the spec's infrastructure error into `BillingService.create_invoice`
after the user was created but before the invoice insert.  The scope exits with
that original error, and the durable store is exactly the starting one: the
pending User row (already flushed into the transaction), the Invoice and the
Audit record are all discarded by the rollback. -/
theorem purchase_workflow_atomic_on_failure (db : DB) (email : String)
    (amount_cents : Int) :
    withUow db (fun s => V1.purchase_workflow true s email amount_cents) =
      (.exn "infrastructure error", db) := by
  simp [withUow, UowObj.enter, UowObj.init, UowObj.exit, UowObj.finalDB,
    V1.purchase_workflow, V1.UserService.register_user, V1.SqlAlchemyUserRepo.add_user,
    V1.BillingService.create_invoice, V1.SqlAlchemyUserRepo.get_email,
    Sess.fresh, Sess.flush, Sess.rollback, Sess.close, Sess.getUserRow,
    Sess.nextUserId, Sess.nextInvoiceId, Sess.nextAuditId, assignIds]

/-! ## Characterizations of the add operations -/

/-- Every row the transaction can currently see carries an id below the users
table's next autoincrement id. -/
theorem id_lt_nextUserId {s : Sess} {r : DBUserRow}
    (hr : r ∈ s.db.users ++ s.txUsers) : r.id < s.nextUserId :=
  Nat.lt_succ_of_le (le_maxId (List.mem_map_of_mem DBUserRow.id hr))

/-- Every visible invoice row's id is below the invoices table's next
autoincrement id. -/
theorem id_lt_nextInvoiceId {s : Sess} {r : DBInvoiceRow}
    (hr : r ∈ s.db.invoices ++ s.txInvoices) : r.id < s.nextInvoiceId :=
  Nat.lt_succ_of_le (le_maxId (List.mem_map_of_mem DBInvoiceRow.id hr))

/-- `SqlAlchemyUserRepo.add` returns the domain user carrying the id the flush
assigned to its row: the table's next autoincrement id offset by the pending
user rows flushed just before it. -/
theorem user_add_eq (s : Sess) (user : NewUser) :
    Impl.SqlAlchemyUserRepo.add s user =
      (⟨s.nextUserId + s.pendUsers.length, user.email⟩,
       Sess.flush { s with pendUsers := s.pendUsers ++ [⟨user.email⟩] }) := by
  unfold Impl.SqlAlchemyUserRepo.add
  simp [DomainEntityMapper.new_user_to_row, DomainEntityMapper.user_row_to_domain,
    Sess.flush, Sess.nextUserId, assignIds_concat, ← List.append_assoc,
    List.getLastD_concat]

/-- `SqlAlchemyInvoiceRepo.add` returns the domain invoice carrying the id the
flush assigned to its row. -/
theorem invoice_add_eq (s : Sess) (invoice : NewInvoice) :
    Impl.SqlAlchemyInvoiceRepo.add s invoice =
      (⟨s.nextInvoiceId + s.pendInvoices.length, invoice.user_id, invoice.amount_cents⟩,
       Sess.flush { s with pendInvoices :=
         s.pendInvoices ++ [⟨invoice.user_id, invoice.amount_cents⟩] }) := by
  unfold Impl.SqlAlchemyInvoiceRepo.add
  simp [DomainEntityMapper.new_invoice_to_row, DomainEntityMapper.invoice_row_to_domain,
    Sess.flush, Sess.nextInvoiceId, assignIds_concat, ← List.append_assoc,
    List.getLastD_concat]

/-- `UserService.register_user` in the characterized form of `user_add_eq`. -/
theorem register_user_eq (s : Sess) (email : String) :
    Impl.UserService.register_user s email =
      (s.nextUserId + s.pendUsers.length,
       Sess.flush { s with pendUsers := s.pendUsers ++ [⟨email⟩] }) := by
  unfold Impl.UserService.register_user
  rw [user_add_eq]

/-! ## C5: `register_user` assigns a fresh positive id visible to `get` -/

/-- C5: inside an Active scope, `UserService.register_user(email)` is exactly
`users.add` — build the row via the mapper, submit it, flush to force identity
assignment, map the flushed row back — and the returned id is a positive
integer that no row visible to the transaction (durable or already flushed)
carried before; a subsequent `users.get` of that id in the same scope returns
a `User` with the matching email. -/
theorem register_user_spec (s : Sess) (email : String) :
    Impl.UserService.register_user s email =
      ((Impl.SqlAlchemyUserRepo.add s ⟨email⟩).1.id,
        (Impl.SqlAlchemyUserRepo.add s ⟨email⟩).2) ∧
    1 ≤ (Impl.UserService.register_user s email).1 ∧
    (Impl.UserService.register_user s email).1 ∉
      ((s.db.users ++ s.txUsers).map DBUserRow.id) ∧
    Impl.SqlAlchemyUserRepo.get (Impl.UserService.register_user s email).2
        (Impl.UserService.register_user s email).1 =
      some ⟨(Impl.UserService.register_user s email).1, email⟩ := by
  refine ⟨rfl, ?_, ?_, ?_⟩
  · rw [register_user_eq]
    have h : 1 ≤ s.nextUserId := Nat.succ_le_succ (Nat.zero_le _)
    omega
  · rw [register_user_eq]
    intro hmem
    obtain ⟨r, hr, hid⟩ := List.mem_map.mp hmem
    have := id_lt_nextUserId hr
    omega
  · rw [register_user_eq]
    simp only [Impl.SqlAlchemyUserRepo.get, Sess.getUserRow]
    have htx : (Sess.flush { s with pendUsers := s.pendUsers ++ [⟨email⟩] }).txUsers =
        (s.txUsers ++
          assignIds (fun i r => DBUserRow.mk i r.email) s.nextUserId s.pendUsers) ++
          [⟨s.nextUserId + s.pendUsers.length, email⟩] := by
      simp [Sess.flush, Sess.nextUserId, assignIds_concat, List.append_assoc]
    rw [htx, List.find?_append]
    have hA : (s.txUsers ++
        assignIds (fun i r => DBUserRow.mk i r.email) s.nextUserId s.pendUsers).find?
          (fun r => r.id == s.nextUserId + s.pendUsers.length) = none := by
      rw [List.find?_eq_none]
      intro x hx hbeq
      have hxid : x.id = s.nextUserId + s.pendUsers.length := by simpa using hbeq
      rcases List.mem_append.mp hx with hx' | hx'
      · have := id_lt_nextUserId (s := s) (List.mem_append_right _ hx')
        omega
      · obtain ⟨i, r, hi, _, hx''⟩ := mem_assignIds hx'
        rw [hx''] at hxid
        simp at hxid
        omega
    rw [hA]
    simp [Sess.flush, DomainEntityMapper.user_row_to_domain]

/-- C5 witness: registering the spec's example user in a fresh scope over the
empty database yields id 1, and `get 1` in the same scope finds it. -/
theorem register_user_spec_witness :
    Impl.SqlAlchemyUserRepo.get
        (Impl.UserService.register_user (Sess.fresh DB.empty) "a@example.com").2
        (Impl.UserService.register_user (Sess.fresh DB.empty) "a@example.com").1 =
      some ⟨1, "a@example.com"⟩ :=
  (register_user_spec (Sess.fresh DB.empty) "a@example.com").2.2.2

/-! ## C4: `create_invoice` fails exactly on a missing user, writing nothing -/

/-- C4: `BillingService.create_invoice(user_id, amount_cents)` raises the
"user not found" domain error if and only if `users.get(user_id)` is empty;
in that case the session state is returned unchanged, so no invoice row was
submitted; otherwise it performs `invoices.add` — whose assigned id is new to
the transaction's view of the invoices table — and returns that id. -/
theorem billing_create_invoice_spec (s : Sess) (user_id : Nat) (amount_cents : Int) :
    ((Impl.BillingService.create_invoice false s user_id amount_cents).1 =
        .exn "user not found" ↔ Impl.SqlAlchemyUserRepo.get s user_id = none) ∧
    (Impl.SqlAlchemyUserRepo.get s user_id = none →
      Impl.BillingService.create_invoice false s user_id amount_cents =
        (.exn "user not found", s)) ∧
    (Impl.SqlAlchemyUserRepo.get s user_id ≠ none →
      Impl.BillingService.create_invoice false s user_id amount_cents =
        (.ok (Impl.SqlAlchemyInvoiceRepo.add s ⟨user_id, amount_cents⟩).1.id,
          (Impl.SqlAlchemyInvoiceRepo.add s ⟨user_id, amount_cents⟩).2) ∧
      (Impl.SqlAlchemyInvoiceRepo.add s ⟨user_id, amount_cents⟩).1.id ∉
        ((s.db.invoices ++ s.txInvoices).map DBInvoiceRow.id)) := by
  have hfresh : (Impl.SqlAlchemyInvoiceRepo.add s ⟨user_id, amount_cents⟩).1.id ∉
      ((s.db.invoices ++ s.txInvoices).map DBInvoiceRow.id) := by
    rw [invoice_add_eq]
    intro hmem
    obtain ⟨r, hr, hid⟩ := List.mem_map.mp hmem
    have := id_lt_nextInvoiceId hr
    simp at hid
    omega
  cases hget : Impl.SqlAlchemyUserRepo.get s user_id with
  | none =>
    refine ⟨?_, fun _ => ?_, fun hne => absurd rfl hne⟩ <;>
      simp [Impl.BillingService.create_invoice, hget]
  | some u =>
    refine ⟨?_, fun h => absurd h (by simp), fun _ => ⟨?_, hfresh⟩⟩ <;>
      simp [Impl.BillingService.create_invoice, hget]

/-- C4 witness: over a store holding user 1 the invoice is created with the
fresh id 1; over the empty store user 7 is missing, the call fails with the
domain error and returns the session unchanged. -/
theorem billing_create_invoice_spec_witness :
    Impl.BillingService.create_invoice false
        (Sess.fresh ⟨[⟨1, "a@example.com"⟩], [], []⟩) 1 100 =
      (.ok (Impl.SqlAlchemyInvoiceRepo.add
          (Sess.fresh ⟨[⟨1, "a@example.com"⟩], [], []⟩) ⟨1, 100⟩).1.id,
        (Impl.SqlAlchemyInvoiceRepo.add
          (Sess.fresh ⟨[⟨1, "a@example.com"⟩], [], []⟩) ⟨1, 100⟩).2) ∧
    Impl.BillingService.create_invoice false (Sess.fresh DB.empty) 7 100 =
      (.exn "user not found", Sess.fresh DB.empty) :=
  ⟨((billing_create_invoice_spec (Sess.fresh ⟨[⟨1, "a@example.com"⟩], [], []⟩) 1 100).2.2
      (by decide)).1,
    (billing_create_invoice_spec (Sess.fresh DB.empty) 7 100).2.1 (by decide)⟩

/-! ## C7: the two source variants agree except for the audit message text

`uow_v1.py`'s workflow records
`f"purchase: user_id={u} invoice_id={i} amount={a}"` while
`uow_example.py`'s use case records `f"purchase: user_id={u} invoice_id={i}"`
(no amount), and the latter hardcodes `michelle@example.com` / `10000` instead
of taking parameters.  So the two variants produce identical User and Invoice
effects and the same invoice id, but their Audit effects differ in the
recorded message. -/

/-- C7 counterexample: running both purchase workflows on the empty store with
the only comparable input (the hardcoded email and amount of
`uow_example.py`), the committed audit messages differ — v1 appends
` amount=10000` — so the two variants are not behaviorally equivalent on the
audit effect. -/
theorem variants_audit_effects_differ :
    (withUow DB.empty
        (fun s => V1.purchase_workflow false s "michelle@example.com" 10000)).2.audit.map
        DBAuditRow.message =
      ["purchase: user_id=1 invoice_id=1 amount=10000"] ∧
    (withUow DB.empty
        (fun s => Impl.purchase_workflow_use_case false s)).2.audit.map
        DBAuditRow.message =
      ["purchase: user_id=1 invoice_id=1"] ∧
    (withUow DB.empty
        (fun s => V1.purchase_workflow false s "michelle@example.com" 10000)).2 ≠
      (withUow DB.empty (fun s => Impl.purchase_workflow_use_case false s)).2 := by
  refine ⟨rfl, rfl, ?_⟩
  decide

/-- C7 amended: for the shared input (the email and amount hardcoded by
`uow_example.py`) over the same starting store, the two variants return the
same invoice id and produce identical User and Invoice effects; their Audit
effects carry the same row id but differ in the message text, v1's carrying
the extra ` amount=10000` suffix. -/
theorem variants_equivalent_up_to_audit_message (db : DB) :
    ∃ uid iid aid,
      withUow db (fun s => V1.purchase_workflow false s "michelle@example.com" 10000) =
        (.ok iid,
         ⟨db.users ++ [⟨uid, "michelle@example.com"⟩],
          db.invoices ++ [⟨iid, uid, 10000⟩],
          db.audit ++ [⟨aid, "purchase: user_id=" ++ toString uid ++ " invoice_id=" ++
            toString iid ++ " amount=10000"⟩]⟩) ∧
      withUow db (fun s => Impl.purchase_workflow_use_case false s) =
        (.ok iid,
         ⟨db.users ++ [⟨uid, "michelle@example.com"⟩],
          db.invoices ++ [⟨iid, uid, 10000⟩],
          db.audit ++ [⟨aid, "purchase: user_id=" ++ toString uid ++ " invoice_id=" ++
            toString iid⟩]⟩) := by
  have h10000 : toString (10000 : Int) = "10000" := rfl
  have hamt : ∀ x : String, x ++ " amount=" ++ "10000" = x ++ " amount=10000" := by
    intro x
    rw [String.append_assoc]
    rfl
  refine ⟨maxId (db.users.map DBUserRow.id) + 1, maxId (db.invoices.map DBInvoiceRow.id) + 1,
    maxId (db.audit.map DBAuditRow.id) + 1, ?_, ?_⟩
  · simp [withUow, UowObj.enter, UowObj.init, UowObj.exit, UowObj.finalDB,
      V1.purchase_workflow, V1.UserService.register_user, V1.SqlAlchemyUserRepo.add_user,
      V1.BillingService.create_invoice, V1.SqlAlchemyUserRepo.get_email,
      V1.SqlAlchemyInvoiceRepo.add_invoice, V1.AuditService.record,
      V1.SqlAlchemyAuditRepo.record, Sess.fresh, Sess.flush, Sess.commit, Sess.close,
      Sess.getUserRow, Sess.nextUserId, Sess.nextInvoiceId, Sess.nextAuditId, assignIds,
      h10000, hamt]
  · simp [withUow, UowObj.enter, UowObj.init, UowObj.exit, UowObj.finalDB,
      Impl.purchase_workflow_use_case, Impl.UserService.register_user,
      Impl.SqlAlchemyUserRepo.add, Impl.SqlAlchemyUserRepo.get,
      Impl.BillingService.create_invoice, Impl.SqlAlchemyInvoiceRepo.add,
      Impl.AuditService.record, Impl.SqlAlchemyAuditRepo.record,
      DomainEntityMapper.new_user_to_row, DomainEntityMapper.user_row_to_domain,
      DomainEntityMapper.new_invoice_to_row, DomainEntityMapper.invoice_row_to_domain,
      DomainEntityMapper.audit_entry_to_row, Sess.fresh, Sess.flush, Sess.commit,
      Sess.close, Sess.getUserRow, Sess.nextUserId, Sess.nextInvoiceId, Sess.nextAuditId,
      assignIds]

end Uow
